import Mathlib

/-!
Verification of `src/hooks/useDownload.ts` (FLOSTIK/cli): a caching,
integrity-verifying resource downloader.  The TypeScript source is shallowly
embedded below: byte streams become `List Nat` chunk lists, the filesystem
becomes a finite map from paths to file contents, and the single `fetch` call
becomes an explicitly supplied `Response` value.  The `Sha256` class used by
the source (for both the cache key and the download digest) is embedded as an
executable SHA-256 over byte lists.
-/

namespace Spec2Proof

/-! ## SHA-256

Executable model of the `Sha256` class imported by the source
(`deno/hash/sha256.ts`): incremental `update` calls over chunks hash the
concatenation of all bytes fed in, and `hex()`/`toString()` render the digest
as lowercase hexadecimal.  Words are `Nat` kept below `2 ^ 32`; overflow is
explicit via `% 4294967296`. -/

namespace SHA256

def M32 : Nat := 4294967296

def add32 (a b : Nat) : Nat := (a + b) % M32

def rotr (n x : Nat) : Nat := (x / 2 ^ n + x * 2 ^ (32 - n)) % M32

def shr (n x : Nat) : Nat := x / 2 ^ n

def ch (x y z : Nat) : Nat := (x &&& y) ^^^ ((x ^^^ 4294967295) &&& z)

def maj (x y z : Nat) : Nat := (x &&& y) ^^^ (x &&& z) ^^^ (y &&& z)

def bigSigma0 (x : Nat) : Nat := rotr 2 x ^^^ rotr 13 x ^^^ rotr 22 x

def bigSigma1 (x : Nat) : Nat := rotr 6 x ^^^ rotr 11 x ^^^ rotr 25 x

def smallSigma0 (x : Nat) : Nat := rotr 7 x ^^^ rotr 18 x ^^^ shr 3 x

def smallSigma1 (x : Nat) : Nat := rotr 17 x ^^^ rotr 19 x ^^^ shr 10 x

/-- Round constants (fractional cube roots of the first 64 primes), written in
decimal. -/
def K : List Nat :=
  [1116352408, 1899447441, 3049323471, 3921009573, 961987163, 1508970993,
   2453635748, 2870763221, 3624381080, 310598401, 607225278, 1426881987,
   1925078388, 2162078206, 2614888103, 3248222580, 3835390401, 4022224774,
   264347078, 604807628, 770255983, 1249150122, 1555081692, 1996064986,
   2554220882, 2821834349, 2952996808, 3210313671, 3336571891, 3584528711,
   113926993, 338241895, 666307205, 773529912, 1294757372, 1396182291,
   1695183700, 1986661051, 2177026350, 2456956037, 2730485921, 2820302411,
   3259730800, 3345764771, 3516065817, 3600352804, 4094571909, 275423344,
   430227734, 506948616, 659060556, 883997877, 958139571, 1322822218,
   1537002063, 1747873779, 1955562222, 2024104815, 2227730452, 2361852424,
   2428436474, 2756734187, 3204031479, 3329325298]

/-- Initial hash value (fractional square roots of the first 8 primes). -/
def H0 : List Nat :=
  [1779033703, 3144134277, 1013904242, 2773480762,
   1359893119, 2600822924, 528734635, 1541459225]

/-- Length-field bytes: the bit length of the message, 8 bytes big-endian. -/
def lenBytes (bitLen : Nat) : List Nat :=
  (List.range 8).map (fun i => bitLen / 2 ^ (8 * (7 - i)) % 256)

/-- SHA-256 message padding: `0x80`, zero bytes up to 56 mod 64, then the
64-bit big-endian bit length. -/
def pad (msg : List Nat) : List Nat :=
  msg ++ [0x80] ++ List.replicate ((119 - msg.length % 64) % 64) 0
      ++ lenBytes (8 * msg.length)

/-- Sixteen 32-bit big-endian words of one 64-byte block. -/
def toWords (block : List Nat) : List Nat :=
  (List.range 16).map (fun i =>
    block.getD (4 * i) 0 * 2 ^ 24 + block.getD (4 * i + 1) 0 * 2 ^ 16 +
    block.getD (4 * i + 2) 0 * 2 ^ 8 + block.getD (4 * i + 3) 0)

/-- Message schedule: extend 16 words to 64. -/
def schedule (w : List Nat) : List Nat :=
  (List.range 48).foldl
    (fun w _ =>
      let n := w.length
      w ++ [add32 (add32 (smallSigma1 (w.getD (n - 2) 0)) (w.getD (n - 7) 0))
              (add32 (smallSigma0 (w.getD (n - 15) 0)) (w.getD (n - 16) 0))])
    w

/-- One compression round on the state `[a, b, c, d, e, f, g, h]`. -/
def round (st : List Nat) (kw : Nat × Nat) : List Nat :=
  match st with
  | [a, b, c, d, e, f, g, hh] =>
    let t1 := add32 hh (add32 (bigSigma1 e) (add32 (ch e f g) (add32 kw.1 kw.2)))
    let t2 := add32 (bigSigma0 a) (maj a b c)
    [add32 t1 t2, a, b, c, add32 d t1, e, f, g]
  | _ => st

/-- Compression of one 64-byte block into the hash value. -/
def compress (hv : List Nat) (block : List Nat) : List Nat :=
  let st := (K.zip (schedule (toWords block))).foldl round hv
  (hv.zip st).map (fun p => add32 p.1 p.2)

def blocksAux : Nat → List Nat → List (List Nat)
  | 0, _ => []
  | _, [] => []
  | n + 1, l => l.take 64 :: blocksAux n (l.drop 64)

/-- Split a byte list into 64-byte blocks. -/
def blocks (l : List Nat) : List (List Nat) := blocksAux (l.length + 1) l

/-- SHA-256 digest (32 bytes) of a byte list. -/
def sha256bytes (msg : List Nat) : List Nat :=
  let hv := (blocks (pad msg)).foldl compress H0
  (hv.map (fun w => [w / 2 ^ 24 % 256, w / 2 ^ 16 % 256, w / 2 ^ 8 % 256, w % 256])).flatten

def hexDigit (n : Nat) : Char := if n < 10 then Char.ofNat (48 + n) else Char.ofNat (87 + n)

def byteHex (b : Nat) : List Char := [hexDigit (b / 16), hexDigit (b % 16)]

/-- Lowercase hex rendering of a byte list, as `Sha256.hex()` produces. -/
def hexString (bs : List Nat) : String := String.mk ((bs.map byteHex).flatten)

/-- Hex SHA-256 of a byte list: `new Sha256().update(chunks...).hex()` over the
concatenation of all chunks. -/
def sha256hexBytes (msg : List Nat) : String := hexString (sha256bytes msg)

/-- Bytes of a string.  `Sha256.update(string)` hashes the UTF-8 encoding; this
model maps each character to its code point, which coincides with UTF-8 for the
ASCII strings the claims are about. -/
def strBytes (s : String) : List Nat := s.toList.map Char.toNat

/-- Hex SHA-256 of a string, as `new Sha256().update(s).toString()`. -/
def sha256hex (s : String) : String := sha256hexBytes (strBytes s)

theorem sha256hex_abc :
    sha256hex "abc" = "ba7816bf8f01cfea414140de5dae2223b00361a396177a9cb410ff61f20015ad" := by
  decide

theorem sha256hex_empty :
    sha256hex "" = "e3b0c44298fc1c149afbf4c8996fb92427ae41e4649b934ca495991b7852b855" := by
  decide

end SHA256

/-! ## Data model

The parts of the runtime environment `useDownload.ts` touches:

* `Path` — the `Path` class used by the source, modelled as the list of path
  components; `a.join(b)` appends a component.
* `URLm` — the WHATWG `URL` values the source receives.  Per the URL standard,
  `search` is either empty or begins with `"?"`, `protocol` ends in `":"`,
  `hostname` is the host without port, and `host` may include the port.
* `FS` — the filesystem, a map from paths to file byte contents.  `isFile` /
  `isReadableFile` are modelled as presence in the map.
* `Response` — the single `fetch` result: status, the `Content-Length` header
  already parsed (`chuzzle(parseInt(...))`: `none` when absent or unparseable),
  the `Last-Modified` header, and the body as a list of chunks.
* `Flags`/`Env` — `useFlags().numpty`, `Deno.env.get("GITHUB_TOKEN")`,
  `Deno.env.get("CI")`.
-/

instance {ε α : Type} [DecidableEq ε] [DecidableEq α] : DecidableEq (Except ε α) := fun a b =>
  match a, b with
  | .error e, .error e' => if h : e = e' then .isTrue (by rw [h]) else .isFalse (by simp [h])
  | .ok v, .ok v' => if h : v = v' then .isTrue (by rw [h]) else .isFalse (by simp [h])
  | .error _, .ok _ => .isFalse (by simp)
  | .ok _, .error _ => .isFalse (by simp)

abbrev Bytes := List Nat

abbrev Path := List String

structure URLm where
  pathname : String
  search : String
  protocol : String
  hostname : String
  host : String
deriving DecidableEq, Repr

def FS : Type := Path → Option Bytes

def FS.set (fs : FS) (p : Path) (v : Bytes) : FS :=
  fun q => if q = p then some v else fs q

def emptyFS : FS := fun _ => none

structure Response where
  status : Nat
  contentLength : Option Nat
  lastModified : Option String
  chunks : List Bytes
deriving DecidableEq, Repr

structure Flags where
  numpty : Bool
deriving DecidableEq, Repr

structure Env where
  githubToken : Option String := none
  ci : Bool := false
deriving DecidableEq, Repr

structure DownloadOptions where
  src : URLm
  dst : Option Path := none
  headers : List (String × String) := []
  ephemeral : Bool := false
deriving DecidableEq, Repr

/-- Errors thrown by `internal` / `download_with_sha`:
`unsupportedScheme` is the bare `throw new Error()` on a `file:` URL (line 40),
`unexpectedStatus` is `` throw new Error(`${rsp.status}: ${src}`) `` (line 88),
`ioError` stands for a rejected stream/file promise. -/
inductive Err
  | unsupportedScheme
  | unexpectedStatus (status : Nat) (url : String)
  | ioError
deriving DecidableEq, Repr

inductive Event
  | openTruncate
  | mkpath
  | bodyWritten
  | markerWritten
  | cacheHit
  | fallbackUsed
deriving DecidableEq, Repr

/-- Rendering of a URL as in the thrown error message `` `${src}` ``. -/
def urlString (u : URLm) : String := u.protocol ++ "//" ++ u.host ++ u.pathname ++ u.search

/-- Decode file bytes back to text, as `mtime_entry().read()` does; inverse of
`SHA256.strBytes` on ASCII content. -/
def bytesStr (b : Bytes) : String := String.mk (b.map Char.ofNat)

/-- Model of `src.path().basename()`: last component of the URL pathname, the
characters after the final `"/"` (equivalently, the last piece of splitting on
`"/"`). -/
def basename (p : String) : String :=
  String.mk (p.toList.foldl (fun acc c => if c = '/' then [] else acc ++ [c]) [])

/-- JS object header assignment `headers[k] = v`: replace an existing entry in
place, else append. -/
def setHeader (hs : List (String × String)) (k v : String) : List (String × String) :=
  if hs.any (fun p => p.1 == k) then hs.map (fun p => if p.1 == k then (k, v) else p)
  else hs ++ [(k, v)]

def hasHeader (hs : List (String × String)) (k : String) : Bool :=
  hs.any (fun p => p.1 == k)

/-- The regex `/(^|\.)github.com$/` of line 51, matched literally: the host
ends in `github` + any one character + `com`, at the start of the string or
preceded by a dot.  (The unescaped `.` before `com` matches any character.) -/
def githubHostMatch (s : String) : Bool :=
  let l := s.toList
  let n := l.length
  if n < 10 then false
  else
    let suf := l.drop (n - 10)
    suf.take 6 == ['g', 'i', 't', 'h', 'u', 'b'] && suf.drop 7 == ['c', 'o', 'm']
      && (n == 10 || l.getD (n - 11) ' ' == '.')

/-- String fed to `Sha256` by `hash_key`'s inner `hash`,
`` `${url.pathname}${url.search ? "?" + url.search : ""}` ``.  Note WHATWG
`url.search` already begins with `"?"` when nonempty, so a nonempty query
yields `pathname + "??" + query`. -/
def hashFormatted (url : URLm) : String :=
  url.pathname ++ (if url.search != "" then "?" ++ url.search else "")

/-- Model of `hash_key` (lines 140–153): `usePrefix().www` (the cache root, passed here
as `www`) joined with the protocol minus its trailing colon, the hostname, and
the hex SHA-256 of `hashFormatted`.  (`mkpath` only creates directories, which
the file map does not track.) -/
def hash_key (www : Path) (url : URLm) : Path :=
  www ++ [url.protocol.dropRight 1, url.hostname, SHA256.sha256hex (hashFormatted url)]

/-- Model of `mtime_entry()` (line 36): `hash().join("mtime")`. -/
def mtimeOf (www : Path) (src : URLm) : Path := hash_key www src ++ ["mtime"]

/-- The destination actually used (line 39):
`dst ??= hash().join(src.path().basename())`. -/
def dstOf (www : Path) (opts : DownloadOptions) : Path :=
  opts.dst.getD (hash_key www opts.src ++ [basename opts.src.pathname])

/-- Header assembly of `internal` (lines 42–57): add `If-Modified-Since` when
not ephemeral and both the `mtime` marker and the destination file exist, then
add `Authorization` for GitHub hosts when a token is in the environment. -/
def sentHeaders (www : Path) (env : Env) (opts : DownloadOptions) (fs : FS) :
    List (String × String) :=
  let headers0 :=
    if !opts.ephemeral && (fs (mtimeOf www opts.src)).isSome
        && (fs (dstOf www opts)).isSome then
      setHeader opts.headers "If-Modified-Since"
        (bytesStr ((fs (mtimeOf www opts.src)).getD []))
    else opts.headers
  if githubHostMatch opts.src.host then
    match env.githubToken with
    | some t => setHeader headers0 "Authorization" ("bearer " ++ t)
    | none => headers0
  else headers0

structure InternalOut where
  result : Except Err Path
  reqHeaders : List (String × String)
  fs : FS
  events : List Event
  bodyInvoked : Bool
  szPassed : Option Nat
  fetchCount : Nat

/-- Model of `internal` (lines 25–93).  Both instantiations of the `body` callback
(`download`'s plain `copy` and `download_with_sha`'s tee) copy the full chunk
stream to `dst`, so the callback is modelled as that copy; `bodyOk` is whether
its promise resolves, and on rejection `truncBytes` is whatever truncated
content the failed copy left behind.  The response to the one `fetch` call is
the supplied `rsp`; `events` records the effect order of the 200 branch,
`bodyInvoked` whether the callback ran (the `run` flag of the caller), and
`szPassed` the `sz` argument handed to the callback. -/
def internal (www : Path) (flags : Flags) (env : Env) (opts : DownloadOptions)
    (rsp : Response) (bodyOk : Bool) (truncBytes : Bytes) (fs : FS) : InternalOut :=
  let mtime_entry := mtimeOf www opts.src
  let dst := dstOf www opts
  if opts.src.protocol == "file:" then
    { result := .error .unsupportedScheme, reqHeaders := opts.headers, fs := fs,
      events := [], bodyInvoked := false, szPassed := none, fetchCount := 0 }
  else
    let headers1 := sentHeaders www env opts fs
    if rsp.status == 200 then
      let sz := rsp.contentLength
      let fs1 := FS.set fs dst []
      if bodyOk then
        let content := rsp.chunks.flatten
        let fs2 := FS.set fs1 dst content
        match rsp.lastModified with
        | some text =>
          { result := .ok dst, reqHeaders := headers1,
            fs := FS.set fs2 mtime_entry (SHA256.strBytes text),
            events := [.openTruncate, .mkpath, .bodyWritten, .markerWritten],
            bodyInvoked := true, szPassed := sz, fetchCount := 1 }
        | none =>
          { result := .ok dst, reqHeaders := headers1, fs := fs2,
            events := [.openTruncate, .mkpath, .bodyWritten],
            bodyInvoked := true, szPassed := sz, fetchCount := 1 }
      else
        { result := .error .ioError, reqHeaders := headers1,
          fs := FS.set fs1 dst truncBytes,
          events := [.openTruncate, .mkpath],
          bodyInvoked := true, szPassed := sz, fetchCount := 1 }
    else if rsp.status == 304 then
      { result := .ok dst, reqHeaders := headers1, fs := fs,
        events := [.cacheHit], bodyInvoked := false, szPassed := none, fetchCount := 1 }
    else if !flags.numpty || (fs dst).isNone then
      { result := .error (.unexpectedStatus rsp.status (urlString opts.src)),
        reqHeaders := headers1, fs := fs,
        events := [], bodyInvoked := false, szPassed := none, fetchCount := 1 }
    else
      { result := .ok dst, reqHeaders := headers1, fs := fs,
        events := [.fallbackUsed], bodyInvoked := false, szPassed := none, fetchCount := 1 }

/-- Model of `download` (lines 95–97): `internal` with the plain `copy` body. -/
def download (www : Path) (flags : Flags) (env : Env) (opts : DownloadOptions)
    (rsp : Response) (bodyOk : Bool) (truncBytes : Bytes) (fs : FS) : InternalOut :=
  internal www flags env opts rsp bodyOk truncBytes fs

/-- Running byte totals `n` after each chunk (`n += buf.length`). -/
def cumsumFrom (acc : Nat) : List Nat → List Nat
  | [] => []
  | x :: xs => (acc + x) :: cumsumFrom (acc + x) xs

def cumsum (l : List Nat) : List Nat := cumsumFrom 0 l

/-- Model of `Math.round(n / sz * 100)` for naturals `n` and `sz > 0`: the JS value
rounds half away from zero, i.e. `⌊n·100/sz + 1/2⌋ = (200·n + sz) / (2·sz)`.
For the power-of-two sizes used concretely below the double-precision
computation is exact, so the rational model is faithful there. -/
def pcOf (n sz : Nat) : Nat := (200 * n + sz) / (2 * sz)

/-- Percentages emitted by the tee's digest-side writer (lines 117–121): one
per chunk, only when `sz` is truthy and `CI` is unset, over the chunk sizes. -/
def progressOf (sz : Option Nat) (ci : Bool) (sizes : List Nat) : List Nat :=
  match sz with
  | some s => if s != 0 && !ci then (cumsum sizes).map (fun n => pcOf n s) else []
  | none => []

structure ShaOut where
  result : Except Err (Path × String)
  reqHeaders : List (String × String)
  fs : FS
  progress : List Nat
  bodyInvoked : Bool
  fetchCount : Nat

/-- Model of `download_with_sha` (lines 99–138).  The tee hands both consumers the same
chunk sequence: the disk side is the copy performed inside `internal`, the
digest side feeds every chunk into `Sha256`, so on a streamed body the digest
input is `rsp.chunks.flatten`.  When the body callback never ran (`!run`) the
file at the returned path is re-read and hashed; if it cannot be opened the
call rejects (`ioError`).  `progress` is the emitted percentage list of a
successfully streamed body (emissions before a mid-stream failure are not
tracked, as the rejected call returns no result). -/
def download_with_sha (www : Path) (flags : Flags) (env : Env) (opts : DownloadOptions)
    (rsp : Response) (bodyOk : Bool) (truncBytes : Bytes) (fs : FS) : ShaOut :=
  let o := internal www flags env opts rsp bodyOk truncBytes fs
  match o.result with
  | .error e =>
    { result := .error e, reqHeaders := o.reqHeaders, fs := o.fs, progress := [],
      bodyInvoked := o.bodyInvoked, fetchCount := o.fetchCount }
  | .ok path =>
    if o.bodyInvoked then
      { result := .ok (path, SHA256.sha256hexBytes rsp.chunks.flatten),
        reqHeaders := o.reqHeaders, fs := o.fs,
        progress := progressOf o.szPassed env.ci (rsp.chunks.map List.length),
        bodyInvoked := true, fetchCount := o.fetchCount }
    else
      match o.fs path with
      | none =>
        { result := .error .ioError, reqHeaders := o.reqHeaders, fs := o.fs,
          progress := [], bodyInvoked := false, fetchCount := o.fetchCount }
      | some bytes =>
        { result := .ok (path, SHA256.sha256hexBytes bytes),
          reqHeaders := o.reqHeaders, fs := o.fs, progress := [],
          bodyInvoked := false, fetchCount := o.fetchCount }

/-! ## Helper lemmas -/

theorem FS.set_self (fs : FS) (p : Path) (v : Bytes) : FS.set fs p v p = some v := by
  simp [FS.set]

theorem FS.set_other (fs : FS) (p q : Path) (v : Bytes) (h : q ≠ p) :
    FS.set fs p v q = fs q := by
  simp [FS.set, h]

theorem hasHeader_append (hs hs' : List (String × String)) (k : String) :
    hasHeader (hs ++ hs') k = (hasHeader hs k || hasHeader hs' k) := by
  simp [hasHeader]

theorem hasHeader_setHeader_self (hs : List (String × String)) (k v : String) :
    hasHeader (setHeader hs k v) k = true := by
  unfold setHeader
  by_cases h : (hs.any fun p => p.1 == k) = true
  · rw [if_pos h]
    rcases List.any_eq_true.mp h with ⟨x, hx, hxk⟩
    refine List.any_eq_true.mpr ⟨(k, v), ?_, by simp⟩
    exact List.mem_map.mpr ⟨x, hx, by simp [hxk]⟩
  · rw [if_neg h]
    simp [hasHeader]

theorem any_map_setEntry (t : List (String × String)) (k v k' : String) :
    ((t.map fun p => if p.1 == k then (k, v) else p).any fun p => p.1 == k')
      = t.any fun p => p.1 == k' := by
  induction t with
  | nil => rfl
  | cons a t ih =>
    simp only [List.map_cons, List.any_cons, ih]
    by_cases ha : a.1 = k
    · simp [ha]
    · simp [ha]

theorem hasHeader_setHeader_other (hs : List (String × String)) (k v k' : String)
    (hne : k' ≠ k) : hasHeader (setHeader hs k v) k' = hasHeader hs k' := by
  unfold setHeader
  by_cases h : (hs.any fun p => p.1 == k) = true
  · rw [if_pos h]
    exact any_map_setEntry hs k v k'
  · rw [if_neg h]
    simp [hasHeader, hne, Ne.symm hne]

/-- Branch characterization: request headers on every non-`file:` run. -/
theorem internal_reqHeaders (www : Path) (flags : Flags) (env : Env)
    (opts : DownloadOptions) (rsp : Response) (bodyOk : Bool) (truncBytes : Bytes)
    (fs : FS) (hscheme : opts.src.protocol ≠ "file:") :
    (internal www flags env opts rsp bodyOk truncBytes fs).reqHeaders
      = sentHeaders www env opts fs := by
  simp only [internal, beq_iff_eq, if_neg hscheme]
  split
  · split
    · split <;> rfl
    · rfl
  · split
    · rfl
    · split <;> rfl

/-- Branch characterization: a `file:` URL is rejected before any fetch. -/
theorem internal_file_spec (www : Path) (flags : Flags) (env : Env)
    (opts : DownloadOptions) (rsp : Response) (bodyOk : Bool) (truncBytes : Bytes)
    (fs : FS) (hscheme : opts.src.protocol = "file:") :
    internal www flags env opts rsp bodyOk truncBytes fs =
      { result := .error .unsupportedScheme, reqHeaders := opts.headers, fs := fs,
        events := [], bodyInvoked := false, szPassed := none, fetchCount := 0 } := by
  simp [internal, hscheme]

/-- Branch characterization: a 304 response. -/
theorem internal_304_spec (www : Path) (flags : Flags) (env : Env)
    (opts : DownloadOptions) (rsp : Response) (bodyOk : Bool) (truncBytes : Bytes)
    (fs : FS) (hscheme : opts.src.protocol ≠ "file:") (h304 : rsp.status = 304) :
    internal www flags env opts rsp bodyOk truncBytes fs =
      { result := .ok (dstOf www opts), reqHeaders := sentHeaders www env opts fs,
        fs := fs, events := [.cacheHit], bodyInvoked := false, szPassed := none,
        fetchCount := 1 } := by
  simp [internal, hscheme, h304]

/-- Branch characterization: a 200 response, body resolved, `Last-Modified`
present. -/
theorem internal_200_ok_some (www : Path) (flags : Flags) (env : Env)
    (opts : DownloadOptions) (rsp : Response) (bodyOk : Bool) (truncBytes : Bytes)
    (fs : FS) (t : String) (hscheme : opts.src.protocol ≠ "file:")
    (h200 : rsp.status = 200) (hOk : bodyOk = true) (hLM : rsp.lastModified = some t) :
    internal www flags env opts rsp bodyOk truncBytes fs =
      { result := .ok (dstOf www opts), reqHeaders := sentHeaders www env opts fs,
        fs := FS.set (FS.set (FS.set fs (dstOf www opts) []) (dstOf www opts)
                rsp.chunks.flatten) (mtimeOf www opts.src) (SHA256.strBytes t),
        events := [.openTruncate, .mkpath, .bodyWritten, .markerWritten],
        bodyInvoked := true, szPassed := rsp.contentLength, fetchCount := 1 } := by
  simp [internal, hscheme, h200, hOk, hLM]

/-- Branch characterization: a 200 response, body resolved, no `Last-Modified`. -/
theorem internal_200_ok_none (www : Path) (flags : Flags) (env : Env)
    (opts : DownloadOptions) (rsp : Response) (bodyOk : Bool) (truncBytes : Bytes)
    (fs : FS) (hscheme : opts.src.protocol ≠ "file:")
    (h200 : rsp.status = 200) (hOk : bodyOk = true) (hLM : rsp.lastModified = none) :
    internal www flags env opts rsp bodyOk truncBytes fs =
      { result := .ok (dstOf www opts), reqHeaders := sentHeaders www env opts fs,
        fs := FS.set (FS.set fs (dstOf www opts) []) (dstOf www opts) rsp.chunks.flatten,
        events := [.openTruncate, .mkpath, .bodyWritten],
        bodyInvoked := true, szPassed := rsp.contentLength, fetchCount := 1 } := by
  simp [internal, hscheme, h200, hOk, hLM]

/-- Branch characterization: a 200 response whose body promise rejects. -/
theorem internal_200_fail (www : Path) (flags : Flags) (env : Env)
    (opts : DownloadOptions) (rsp : Response) (bodyOk : Bool) (truncBytes : Bytes)
    (fs : FS) (hscheme : opts.src.protocol ≠ "file:")
    (h200 : rsp.status = 200) (hOk : bodyOk = false) :
    internal www flags env opts rsp bodyOk truncBytes fs =
      { result := .error .ioError, reqHeaders := sentHeaders www env opts fs,
        fs := FS.set (FS.set fs (dstOf www opts) []) (dstOf www opts) truncBytes,
        events := [.openTruncate, .mkpath],
        bodyInvoked := true, szPassed := rsp.contentLength, fetchCount := 1 } := by
  simp [internal, hscheme, h200, hOk]

/-- Branch characterization: any other status, no permissive fallback. -/
theorem internal_other_throw (www : Path) (flags : Flags) (env : Env)
    (opts : DownloadOptions) (rsp : Response) (bodyOk : Bool) (truncBytes : Bytes)
    (fs : FS) (hscheme : opts.src.protocol ≠ "file:")
    (h200 : rsp.status ≠ 200) (h304 : rsp.status ≠ 304)
    (hfb : (!flags.numpty || (fs (dstOf www opts)).isNone) = true) :
    internal www flags env opts rsp bodyOk truncBytes fs =
      { result := .error (.unexpectedStatus rsp.status (urlString opts.src)),
        reqHeaders := sentHeaders www env opts fs, fs := fs, events := [],
        bodyInvoked := false, szPassed := none, fetchCount := 1 } := by
  simp [internal, hscheme, h200, h304, hfb]

/-- Branch characterization: any other status, permissive fallback taken. -/
theorem internal_other_fallback (www : Path) (flags : Flags) (env : Env)
    (opts : DownloadOptions) (rsp : Response) (bodyOk : Bool) (truncBytes : Bytes)
    (fs : FS) (hscheme : opts.src.protocol ≠ "file:")
    (h200 : rsp.status ≠ 200) (h304 : rsp.status ≠ 304)
    (hfb : (!flags.numpty || (fs (dstOf www opts)).isNone) = false) :
    internal www flags env opts rsp bodyOk truncBytes fs =
      { result := .ok (dstOf www opts), reqHeaders := sentHeaders www env opts fs,
        fs := fs, events := [.fallbackUsed], bodyInvoked := false, szPassed := none,
        fetchCount := 1 } := by
  simp [internal, hscheme, h200, h304, hfb]

theorem cumsumFrom_le_mem (acc : Nat) (l : List Nat) :
    ∀ x ∈ cumsumFrom acc l, acc ≤ x := by
  induction l generalizing acc with
  | nil => simp [cumsumFrom]
  | cons a t ih =>
    intro x hx
    rcases (by simpa [cumsumFrom] using hx : x = acc + a ∨ x ∈ cumsumFrom (acc + a) t) with
      rfl | hx'
    · omega
    · exact le_trans (by omega) (ih (acc + a) x hx')

theorem cumsumFrom_chain (acc : Nat) (l : List Nat) :
    List.Chain' (· ≤ ·) (cumsumFrom acc l) := by
  induction l generalizing acc with
  | nil => simp [cumsumFrom]
  | cons a t ih =>
    rw [cumsumFrom, List.chain'_cons']
    exact ⟨fun b hb => cumsumFrom_le_mem (acc + a) t b (List.mem_of_mem_head? hb),
      ih (acc + a)⟩

theorem cumsumFrom_le_sum (acc : Nat) (l : List Nat) :
    ∀ x ∈ cumsumFrom acc l, x ≤ acc + l.sum := by
  induction l generalizing acc with
  | nil => simp [cumsumFrom]
  | cons a t ih =>
    intro x hx
    rcases (by simpa [cumsumFrom] using hx : x = acc + a ∨ x ∈ cumsumFrom (acc + a) t) with
      rfl | hx'
    · simp only [List.sum_cons]
      omega
    · have := ih (acc + a) x hx'
      simp [List.sum_cons] at *
      omega

theorem cumsumFrom_getLast? (acc : Nat) (l : List Nat) (h : l ≠ []) :
    (cumsumFrom acc l).getLast? = some (acc + l.sum) := by
  induction l generalizing acc with
  | nil => exact absurd rfl h
  | cons a t ih =>
    cases t with
    | nil => simp [cumsumFrom]
    | cons b u =>
      rw [cumsumFrom, show cumsumFrom (acc + a) (b :: u) = (acc + a + b) :: cumsumFrom (acc + a + b) u from rfl,
        List.getLast?_cons_cons,
        show (acc + a + b) :: cumsumFrom (acc + a + b) u = cumsumFrom (acc + a) (b :: u) from rfl,
        ih (acc + a) (by simp)]
      simp only [List.sum_cons, Option.some.injEq]
      omega

theorem getLast?_map_pc (f : Nat → Nat) (l : List Nat) :
    (l.map f).getLast? = l.getLast?.map f := by
  induction l with
  | nil => rfl
  | cons a t ih =>
    cases t with
    | nil => rfl
    | cons b u => simpa [List.getLast?_cons_cons] using ih

theorem pcOf_mono (sz : Nat) {n m : Nat} (h : n ≤ m) : pcOf n sz ≤ pcOf m sz :=
  Nat.div_le_div_right (by omega)

theorem pcOf_le_100 (n sz : Nat) (hsz : sz ≠ 0) (h : n ≤ sz) : pcOf n sz ≤ 100 := by
  unfold pcOf
  have hpos : 0 < 2 * sz := by omega
  have hlt : 200 * n + sz < 101 * (2 * sz) := by omega
  exact Nat.lt_succ_iff.mp ((Nat.div_lt_iff_lt_mul hpos).mpr hlt)

theorem pcOf_self (sz : Nat) (hsz : sz ≠ 0) : pcOf sz sz = 100 := by
  unfold pcOf
  have h1 : 200 * sz + sz = 2 * sz * 100 + sz := by ring
  rw [h1, Nat.mul_add_div (by omega)]
  rw [Nat.div_eq_of_lt (by omega)]

/-- Presence of `If-Modified-Since` in the assembled request headers, assuming
the caller did not supply one themselves. -/
theorem hasHeader_sentHeaders (www : Path) (env : Env) (opts : DownloadOptions) (fs : FS)
    (hno : hasHeader opts.headers "If-Modified-Since" = false) :
    hasHeader (sentHeaders www env opts fs) "If-Modified-Since"
      = (!opts.ephemeral && (fs (mtimeOf www opts.src)).isSome
          && (fs (dstOf www opts)).isSome) := by
  unfold sentHeaders
  cases hcond : (!opts.ephemeral && (fs (mtimeOf www opts.src)).isSome
      && (fs (dstOf www opts)).isSome) with
  | true =>
    rw [if_pos (show (true : Bool) = true from rfl)]
    cases hgh : githubHostMatch opts.src.host with
    | false =>
      rw [if_neg (show ¬((false : Bool) = true) by simp)]
      exact hasHeader_setHeader_self _ _ _
    | true =>
      rw [if_pos (show (true : Bool) = true from rfl)]
      cases env.githubToken with
      | none => exact hasHeader_setHeader_self _ _ _
      | some t =>
        rw [hasHeader_setHeader_other _ _ _ _ (by decide)]
        exact hasHeader_setHeader_self _ _ _
  | false =>
    rw [if_neg (show ¬((false : Bool) = true) by simp)]
    cases hgh : githubHostMatch opts.src.host with
    | false =>
      rw [if_neg (show ¬((false : Bool) = true) by simp)]
      exact hno
    | true =>
      rw [if_pos (show (true : Bool) = true from rfl)]
      cases env.githubToken with
      | none => exact hno
      | some t =>
        rw [hasHeader_setHeader_other _ _ _ _ (by decide)]
        exact hno

/-- Default destination and `mtime` marker are different files whenever the URL
basename is not itself `"mtime"`. -/
theorem dstOf_default_ne_mtimeOf (www : Path) (opts : DownloadOptions)
    (hdst : opts.dst = none) (hbn : basename opts.src.pathname ≠ "mtime") :
    dstOf www opts ≠ mtimeOf www opts.src := by
  simp only [dstOf, hdst, Option.getD_none, mtimeOf, ne_eq, List.append_right_inj,
    List.cons.injEq, and_true]
  exact hbn

/-! ## Concrete fixtures -/

def exampleURL : URLm :=
  { pathname := "/a/b.tar.gz", search := "?v=2", protocol := "https:",
    hostname := "example.com", host := "example.com" }

def wwwEx : Path := ["root"]

def rsp200ex : Response :=
  { status := 200, contentLength := some 2,
    lastModified := some "Wed, 21 Oct 2015 07:28:00 GMT", chunks := [[104], [105]] }

def rsp200noLM : Response :=
  { status := 200, contentLength := some 2, lastModified := none,
    chunks := [[104], [105]] }

def rsp304ex : Response :=
  { status := 304, contentLength := none, lastModified := none, chunks := [] }

def rsp500ex : Response :=
  { status := 500, contentLength := none, lastModified := none, chunks := [] }

def fsHi : FS := FS.set emptyFS ["c"] [104, 105]

def optsC : DownloadOptions := { src := exampleURL, dst := some ["c"] }

def fsBase : FS := FS.set fsHi (mtimeOf wwwEx exampleURL) [76, 77]

def rsp200pr : Response :=
  { status := 200, contentLength := some 4, lastModified := none,
    chunks := [[1], [2, 3, 4]] }

def default_env : Env := {}

def optsEph : DownloadOptions := { src := exampleURL, ephemeral := true }

/-! ## Claims -/

/-- C1, counterexample.  The claim's concrete scenario says the cache key for
`https://example.com/a/b.tar.gz?v=2` ends in the hex SHA-256 of
`"/a/b.tar.gz?v=2"`.  It does not: WHATWG `url.search` already starts with
`"?"`, and `hash_key` prepends another `"?"`, so the hashed string is
`"/a/b.tar.gz??v=2"` and the final key segment is a different digest. -/
theorem c1_counterexample :
    hash_key wwwEx exampleURL
      ≠ wwwEx ++ ["https", "example.com", SHA256.sha256hex "/a/b.tar.gz?v=2"] := by
  decide

/-- C1, amended.  The cache key is
`<root>/<scheme>/<host>/<hex-SHA-256 of pathname + "?" + search>` where
`search` itself begins with `"?"`: for `https://example.com/a/b.tar.gz?v=2`
with no prior cache the hashed string is `"/a/b.tar.gz??v=2"`, the key is the
concrete digest path below, the body is written to `<that dir>/b.tar.gz`, and
`mtime` is written there only if `Last-Modified` was present. -/
theorem c1_concrete_scenario :
    hash_key wwwEx exampleURL
      = ["root", "https", "example.com",
          "4c9648446ab81e1a585a60944e7f83a260e1113ce0c1278d5762b1fc3472df11"]
    ∧ SHA256.sha256hex (hashFormatted exampleURL)
      = SHA256.sha256hex "/a/b.tar.gz??v=2"
    ∧ (internal wwwEx ⟨false⟩ {} { src := exampleURL } rsp200ex true [] emptyFS).result
      = .ok (hash_key wwwEx exampleURL ++ ["b.tar.gz"])
    ∧ (internal wwwEx ⟨false⟩ {} { src := exampleURL } rsp200ex true [] emptyFS).fs
        (hash_key wwwEx exampleURL ++ ["b.tar.gz"]) = some [104, 105]
    ∧ ((internal wwwEx ⟨false⟩ {} { src := exampleURL } rsp200ex true [] emptyFS).fs
        (mtimeOf wwwEx exampleURL)).isSome = true
    ∧ (internal wwwEx ⟨false⟩ {} { src := exampleURL } rsp200noLM true [] emptyFS).fs
        (mtimeOf wwwEx exampleURL) = none := by
  decide

/-- C2.  On a 304 (no fresh body streamed), `download_with_sha` still returns
a digest, computed by re-reading the existing destination file, with exactly
the one original `fetch`; the digest equals the SHA-256 of the destination
file's final bytes (which the 304 path leaves untouched). -/
theorem c2_304_digest (www : Path) (flags : Flags) (env : Env) (opts : DownloadOptions)
    (rsp : Response) (bodyOk : Bool) (truncBytes : Bytes) (fs : FS) (bytes : Bytes)
    (hscheme : opts.src.protocol ≠ "file:") (h304 : rsp.status = 304)
    (hfile : fs (dstOf www opts) = some bytes) :
    (download_with_sha www flags env opts rsp bodyOk truncBytes fs).result
        = .ok (dstOf www opts, SHA256.sha256hexBytes bytes)
    ∧ (download_with_sha www flags env opts rsp bodyOk truncBytes fs).fs (dstOf www opts)
        = some bytes
    ∧ (download_with_sha www flags env opts rsp bodyOk truncBytes fs).fetchCount = 1 := by
  simp only [download_with_sha,
    internal_304_spec www flags env opts rsp bodyOk truncBytes fs hscheme h304]
  simp [hfile]

/-- C2 witness: a concrete 304 run over a cached two-byte file. -/
theorem c2_witness :
    (optsC.src.protocol ≠ "file:" ∧ rsp304ex.status = 304
      ∧ fsHi (dstOf wwwEx optsC) = some [104, 105])
    ∧ ((download_with_sha wwwEx ⟨false⟩ {} optsC rsp304ex true [] fsHi).result
        = .ok (dstOf wwwEx optsC, SHA256.sha256hexBytes [104, 105])
      ∧ (download_with_sha wwwEx ⟨false⟩ {} optsC rsp304ex true [] fsHi).fs
          (dstOf wwwEx optsC) = some [104, 105]
      ∧ (download_with_sha wwwEx ⟨false⟩ {} optsC rsp304ex true [] fsHi).fetchCount = 1) :=
  ⟨by decide, c2_304_digest wwwEx ⟨false⟩ {} optsC rsp304ex true [] fsHi [104, 105]
    (by decide) (by decide) (by decide)⟩

/-- C5.  Any status other than 200/304 fails with the unexpected-status error
carrying the status and URL, unless permissive mode (`numpty`) is set and a
destination file already exists, in which case the existing path is returned
and the filesystem is untouched. -/
theorem c5_unexpected_status (www : Path) (flags : Flags) (env : Env)
    (opts : DownloadOptions) (rsp : Response) (bodyOk : Bool) (truncBytes : Bytes)
    (fs : FS) (hscheme : opts.src.protocol ≠ "file:")
    (h200 : rsp.status ≠ 200) (h304 : rsp.status ≠ 304) :
    (flags.numpty = true ∧ (fs (dstOf www opts)).isSome = true →
      (internal www flags env opts rsp bodyOk truncBytes fs).result = .ok (dstOf www opts)
      ∧ (internal www flags env opts rsp bodyOk truncBytes fs).fs = fs)
    ∧ (¬(flags.numpty = true ∧ (fs (dstOf www opts)).isSome = true) →
      (internal www flags env opts rsp bodyOk truncBytes fs).result
        = .error (.unexpectedStatus rsp.status (urlString opts.src))) := by
  constructor
  · rintro ⟨hn, hd⟩
    have hfb : (!flags.numpty || (fs (dstOf www opts)).isNone) = false := by
      rcases Option.isSome_iff_exists.mp hd with ⟨b, hb⟩
      simp [hn, hb]
    rw [internal_other_fallback www flags env opts rsp bodyOk truncBytes fs hscheme
      h200 h304 hfb]
    exact ⟨rfl, rfl⟩
  · intro hnot
    have hfb : (!flags.numpty || (fs (dstOf www opts)).isNone) = true := by
      cases hn : flags.numpty with
      | false => simp
      | true =>
        cases hv : fs (dstOf www opts) with
        | none => simp
        | some b => exact absurd ⟨hn, by simp [hv]⟩ hnot
    rw [internal_other_throw www flags env opts rsp bodyOk truncBytes fs hscheme
      h200 h304 hfb]

/-- C5 witness: a 500 with no cached destination file fails with the error. -/
theorem c5_witness :
    (exampleURL.protocol ≠ "file:" ∧ rsp500ex.status ≠ 200 ∧ rsp500ex.status ≠ 304)
    ∧ (¬((⟨false⟩ : Flags).numpty = true
          ∧ (emptyFS (dstOf wwwEx { src := exampleURL })).isSome = true)
        → (internal wwwEx ⟨false⟩ {} { src := exampleURL } rsp500ex true [] emptyFS).result
          = .error (.unexpectedStatus 500 (urlString exampleURL))) :=
  ⟨by decide,
    fun h => by
      have := (c5_unexpected_status wwwEx ⟨false⟩ {} { src := exampleURL } rsp500ex true []
        emptyFS (by decide) (by decide) (by decide)).2 h
      simpa [rsp500ex] using this⟩

/-- C8.  A 304 leaves the whole filesystem — in particular the destination
file's bytes — exactly as before the call, streams no body, and returns the
destination path. -/
theorem c8_304_frame (www : Path) (flags : Flags) (env : Env) (opts : DownloadOptions)
    (rsp : Response) (bodyOk : Bool) (truncBytes : Bytes) (fs : FS)
    (hscheme : opts.src.protocol ≠ "file:") (h304 : rsp.status = 304) :
    (internal www flags env opts rsp bodyOk truncBytes fs).fs = fs
    ∧ (internal www flags env opts rsp bodyOk truncBytes fs).bodyInvoked = false
    ∧ (internal www flags env opts rsp bodyOk truncBytes fs).result
        = .ok (dstOf www opts) := by
  rw [internal_304_spec www flags env opts rsp bodyOk truncBytes fs hscheme h304]
  exact ⟨rfl, rfl, rfl⟩

/-- C3, counterexample.  The claim says the result's sha is populated only
when bytes were streamed from the network, and that on a 304 the system does
not hash cached content itself.  In fact `download_with_sha` returns a
populated sha on the 304 path, equal to the SHA-256 of the cached bytes
`"hi"`, which the system computed itself by re-reading the file. -/
theorem c3_counterexample :
    (download_with_sha wwwEx ⟨false⟩ {} optsC rsp304ex true [] fsHi).bodyInvoked = false
    ∧ (download_with_sha wwwEx ⟨false⟩ {} optsC rsp304ex true [] fsHi).result
      = .ok (["c"],
          "8f434346648f6b96df89dda901c5176b10a6d83961dd3c1ac88b59b2dc327aa4") := by
  decide

/-- C3, amended.  Whenever `download_with_sha` returns, its sha is populated:
from the network chunk stream when the body was streamed during this call, and
otherwise (304 cache hit or permissive fallback) computed by the system itself
from the existing destination file's bytes — the caller never has to hash. -/
theorem c3_sha_source (www : Path) (flags : Flags) (env : Env) (opts : DownloadOptions)
    (rsp : Response) (bodyOk : Bool) (truncBytes : Bytes) (fs : FS) (p : Path) (s : String)
    (h : (download_with_sha www flags env opts rsp bodyOk truncBytes fs).result
        = .ok (p, s)) :
    ((download_with_sha www flags env opts rsp bodyOk truncBytes fs).bodyInvoked = true →
      s = SHA256.sha256hexBytes rsp.chunks.flatten)
    ∧ ((download_with_sha www flags env opts rsp bodyOk truncBytes fs).bodyInvoked = false →
      ∃ bytes, (internal www flags env opts rsp bodyOk truncBytes fs).fs p = some bytes
        ∧ s = SHA256.sha256hexBytes bytes) := by
  by_cases hscheme : opts.src.protocol = "file:"
  · simp [download_with_sha,
      internal_file_spec www flags env opts rsp bodyOk truncBytes fs hscheme] at h
  · by_cases h200 : rsp.status = 200
    · cases bodyOk with
      | true =>
        cases hLM : rsp.lastModified with
        | some t =>
          have hi := internal_200_ok_some www flags env opts rsp true truncBytes fs t
            hscheme h200 rfl hLM
          simp [download_with_sha, hi] at h ⊢
          exact h.2.symm
        | none =>
          have hi := internal_200_ok_none www flags env opts rsp true truncBytes fs
            hscheme h200 rfl hLM
          simp [download_with_sha, hi] at h ⊢
          exact h.2.symm
      | false =>
        have hi := internal_200_fail www flags env opts rsp false truncBytes fs
          hscheme h200 rfl
        simp [download_with_sha, hi] at h
    · by_cases h304 : rsp.status = 304
      · have hi := internal_304_spec www flags env opts rsp bodyOk truncBytes fs
          hscheme h304
        cases hfs : fs (dstOf www opts) with
        | none => simp [download_with_sha, hi, hfs] at h
        | some bytes =>
          simp [download_with_sha, hi, hfs] at h ⊢
          exact ⟨bytes, h.1 ▸ hfs, h.2.symm⟩
      · cases hfb : (!flags.numpty || (fs (dstOf www opts)).isNone) with
        | true =>
          have hi := internal_other_throw www flags env opts rsp bodyOk truncBytes fs
            hscheme h200 h304 hfb
          simp [download_with_sha, hi] at h
        | false =>
          have hi := internal_other_fallback www flags env opts rsp bodyOk truncBytes fs
            hscheme h200 h304 hfb
          cases hfs : fs (dstOf www opts) with
          | none =>
            exact absurd (by simp [hfs]) (by simp [hfb] : ¬(!flags.numpty
              || (fs (dstOf www opts)).isNone) = true)
          | some bytes =>
            simp [download_with_sha, hi, hfs] at h ⊢
            exact ⟨bytes, h.1 ▸ hfs, h.2.symm⟩

/-- C3 witness: the amended claim applied to the concrete 304 run. -/
theorem c3_witness :
    ((download_with_sha wwwEx ⟨false⟩ {} optsC rsp304ex true [] fsHi).result
        = .ok (["c"], SHA256.sha256hexBytes [104, 105]))
    ∧ (((download_with_sha wwwEx ⟨false⟩ {} optsC rsp304ex true [] fsHi).bodyInvoked = true →
        SHA256.sha256hexBytes [104, 105] = SHA256.sha256hexBytes rsp304ex.chunks.flatten)
      ∧ ((download_with_sha wwwEx ⟨false⟩ {} optsC rsp304ex true [] fsHi).bodyInvoked = false →
        ∃ bytes, (internal wwwEx ⟨false⟩ {} optsC rsp304ex true [] fsHi).fs ["c"] = some bytes
          ∧ SHA256.sha256hexBytes [104, 105] = SHA256.sha256hexBytes bytes)) :=
  ⟨by decide, c3_sha_source wwwEx ⟨false⟩ {} optsC rsp304ex true [] fsHi ["c"]
    (SHA256.sha256hexBytes [104, 105]) (by decide)⟩

/-- C4.  Starting from caller headers without `If-Modified-Since`, the request
carries `If-Modified-Since` iff `ephemeral` is false and both the stored
`mtime` marker file and the destination payload file exist; in particular an
ephemeral call never attaches it. -/
theorem c4_conditional_header (www : Path) (flags : Flags) (env : Env)
    (opts : DownloadOptions) (rsp : Response) (bodyOk : Bool) (truncBytes : Bytes)
    (fs : FS) (hscheme : opts.src.protocol ≠ "file:")
    (hno : hasHeader opts.headers "If-Modified-Since" = false) :
    hasHeader (internal www flags env opts rsp bodyOk truncBytes fs).reqHeaders
        "If-Modified-Since"
      = (!opts.ephemeral && (fs (mtimeOf www opts.src)).isSome
          && (fs (dstOf www opts)).isSome) := by
  rw [internal_reqHeaders www flags env opts rsp bodyOk truncBytes fs hscheme]
  exact hasHeader_sentHeaders www env opts fs hno

/-- C4 witness: with marker and payload both present and `ephemeral` false,
the concrete request carries the conditional header. -/
theorem c4_witness :
    (optsC.src.protocol ≠ "file:" ∧ hasHeader optsC.headers "If-Modified-Since" = false)
    ∧ hasHeader (internal wwwEx ⟨false⟩ {} optsC rsp304ex true [] fsBase).reqHeaders
        "If-Modified-Since"
      = (!optsC.ephemeral && (fsBase (mtimeOf wwwEx optsC.src)).isSome
          && (fsBase (dstOf wwwEx optsC)).isSome) :=
  ⟨by decide, c4_conditional_header wwwEx ⟨false⟩ {} optsC rsp304ex true [] fsBase
    (by decide) (by decide)⟩

/-- C6.  For a streamed 200 body, the returned digest is the SHA-256 of
exactly the chunk sequence that is written to the destination file (the tee
feeds both consumers the same chunks), so re-hashing the written file yields
the same digest. -/
theorem c6_digest_matches_disk (www : Path) (flags : Flags) (env : Env)
    (opts : DownloadOptions) (rsp : Response) (truncBytes : Bytes) (fs : FS)
    (hscheme : opts.src.protocol ≠ "file:") (h200 : rsp.status = 200)
    (hne : dstOf www opts ≠ mtimeOf www opts.src) :
    (download_with_sha www flags env opts rsp true truncBytes fs).result
        = .ok (dstOf www opts, SHA256.sha256hexBytes rsp.chunks.flatten)
    ∧ (download_with_sha www flags env opts rsp true truncBytes fs).fs (dstOf www opts)
        = some rsp.chunks.flatten
    ∧ (∀ b, (download_with_sha www flags env opts rsp true truncBytes fs).fs
          (dstOf www opts) = some b →
        SHA256.sha256hexBytes b = SHA256.sha256hexBytes rsp.chunks.flatten) := by
  cases hLM : rsp.lastModified with
  | some t =>
    have hi := internal_200_ok_some www flags env opts rsp true truncBytes fs t
      hscheme h200 rfl hLM
    have hfs : (download_with_sha www flags env opts rsp true truncBytes fs).fs
        (dstOf www opts) = some rsp.chunks.flatten := by
      simp only [download_with_sha, hi, if_true, eq_self_iff_true]
      show (FS.set (FS.set (FS.set fs (dstOf www opts) []) (dstOf www opts)
        rsp.chunks.flatten) (mtimeOf www opts.src) (SHA256.strBytes t)) (dstOf www opts)
        = some rsp.chunks.flatten
      rw [FS.set_other _ _ _ _ hne, FS.set_self]
    refine ⟨by simp [download_with_sha, hi], hfs, ?_⟩
    intro b hb
    rw [hfs] at hb
    rw [Option.some.inj hb]
  | none =>
    have hi := internal_200_ok_none www flags env opts rsp true truncBytes fs
      hscheme h200 rfl hLM
    have hfs : (download_with_sha www flags env opts rsp true truncBytes fs).fs
        (dstOf www opts) = some rsp.chunks.flatten := by
      simp only [download_with_sha, hi, if_true, eq_self_iff_true]
      show (FS.set (FS.set fs (dstOf www opts) []) (dstOf www opts)
        rsp.chunks.flatten) (dstOf www opts) = some rsp.chunks.flatten
      rw [FS.set_self]
    refine ⟨by simp [download_with_sha, hi], hfs, ?_⟩
    intro b hb
    rw [hfs] at hb
    rw [Option.some.inj hb]

/-- C6 witness: the concrete 200 run over body chunks `[104]`,`[105]`. -/
theorem c6_witness :
    (optsC.src.protocol ≠ "file:" ∧ rsp200ex.status = 200
      ∧ dstOf wwwEx optsC ≠ mtimeOf wwwEx optsC.src)
    ∧ ((download_with_sha wwwEx ⟨false⟩ {} optsC rsp200ex true [] fsHi).result
        = .ok (dstOf wwwEx optsC, SHA256.sha256hexBytes rsp200ex.chunks.flatten)
      ∧ (download_with_sha wwwEx ⟨false⟩ {} optsC rsp200ex true [] fsHi).fs
          (dstOf wwwEx optsC) = some rsp200ex.chunks.flatten
      ∧ (∀ b, (download_with_sha wwwEx ⟨false⟩ {} optsC rsp200ex true [] fsHi).fs
            (dstOf wwwEx optsC) = some b →
          SHA256.sha256hexBytes b = SHA256.sha256hexBytes rsp200ex.chunks.flatten)) :=
  ⟨by decide, c6_digest_matches_disk wwwEx ⟨false⟩ {} optsC rsp200ex [] fsHi
    (by decide) (by decide) (by decide)⟩

/-- C7.  In a 200 download, the `mtime` marker write is the last event,
strictly after the body has been fully persisted, and happens only when the
response carries `Last-Modified`; when the body write fails the marker keeps
its previous state. -/
theorem c7_marker_after_body (www : Path) (flags : Flags) (env : Env)
    (opts : DownloadOptions) (rsp : Response) (bodyOk : Bool) (truncBytes : Bytes)
    (fs : FS) (hscheme : opts.src.protocol ≠ "file:") (h200 : rsp.status = 200)
    (hne : dstOf www opts ≠ mtimeOf www opts.src) :
    (∀ t, bodyOk = true → rsp.lastModified = some t →
      (internal www flags env opts rsp bodyOk truncBytes fs).events
          = [.openTruncate, .mkpath, .bodyWritten, .markerWritten]
      ∧ (internal www flags env opts rsp bodyOk truncBytes fs).fs (mtimeOf www opts.src)
          = some (SHA256.strBytes t))
    ∧ (bodyOk = true → rsp.lastModified = none →
      (internal www flags env opts rsp bodyOk truncBytes fs).events
          = [.openTruncate, .mkpath, .bodyWritten]
      ∧ (internal www flags env opts rsp bodyOk truncBytes fs).fs (mtimeOf www opts.src)
          = fs (mtimeOf www opts.src))
    ∧ (bodyOk = false →
      (internal www flags env opts rsp bodyOk truncBytes fs).fs (mtimeOf www opts.src)
          = fs (mtimeOf www opts.src)
      ∧ Event.markerWritten ∉ (internal www flags env opts rsp bodyOk truncBytes fs).events) := by
  refine ⟨?_, ?_, ?_⟩
  · intro t hOk hLM
    rw [internal_200_ok_some www flags env opts rsp bodyOk truncBytes fs t hscheme h200
      hOk hLM]
    exact ⟨rfl, FS.set_self _ _ _⟩
  · intro hOk hLM
    rw [internal_200_ok_none www flags env opts rsp bodyOk truncBytes fs hscheme h200
      hOk hLM]
    refine ⟨rfl, ?_⟩
    show (FS.set (FS.set fs (dstOf www opts) []) (dstOf www opts) rsp.chunks.flatten)
        (mtimeOf www opts.src) = fs (mtimeOf www opts.src)
    rw [FS.set_other _ _ _ _ (Ne.symm hne), FS.set_other _ _ _ _ (Ne.symm hne)]
  · intro hOk
    rw [internal_200_fail www flags env opts rsp bodyOk truncBytes fs hscheme h200 hOk]
    constructor
    · show (FS.set (FS.set fs (dstOf www opts) []) (dstOf www opts) truncBytes)
          (mtimeOf www opts.src) = fs (mtimeOf www opts.src)
      rw [FS.set_other _ _ _ _ (Ne.symm hne), FS.set_other _ _ _ _ (Ne.symm hne)]
    · show Event.markerWritten ∉ [Event.openTruncate, Event.mkpath]
      decide

/-- C7 witness: the three cases at the concrete 200 responses. -/
theorem c7_witness :
    (optsC.src.protocol ≠ "file:" ∧ rsp200ex.status = 200
      ∧ dstOf wwwEx optsC ≠ mtimeOf wwwEx optsC.src)
    ∧ ((∀ t, (true : Bool) = true → rsp200ex.lastModified = some t →
        (internal wwwEx ⟨false⟩ {} optsC rsp200ex true [] fsHi).events
            = [.openTruncate, .mkpath, .bodyWritten, .markerWritten]
        ∧ (internal wwwEx ⟨false⟩ {} optsC rsp200ex true [] fsHi).fs
            (mtimeOf wwwEx optsC.src) = some (SHA256.strBytes t))) :=
  ⟨by decide, fun t _ hLM =>
    (c7_marker_after_body wwwEx ⟨false⟩ {} optsC rsp200ex true [] fsHi
      (by decide) (by decide) (by decide)).1 t rfl hLM⟩

/-- C9, counterexample.  The claim says the percentage reaches 100% exactly
when all bytes are consumed, not before.  With `Content-Length: 1048576`,
after a first chunk of 1043334 bytes (99.50003%) `Math.round` already yields
100, so the very first emitted update reads 100% while 5242 bytes are still
outstanding. -/
theorem c9_counterexample :
    progressOf (some 1048576) false [1043334, 5242] = [100, 100]
    ∧ cumsum [1043334, 5242] = [1043334, 1048576]
    ∧ 1043334 < 1048576 := by
  decide

/-- C9, amended.  For a streamed body with declared positive `Content-Length`
(and outside CI), the emitted percentages are exactly
`round(bytesSoFar·100/size)` per chunk: monotonically non-decreasing, never
above 100 while within the declared size, and 100 at the final update when all
bytes are consumed — but rounding can already show 100 from 99.5% of the
declared size onward, i.e. slightly before completion. -/
theorem c9_progress_monotone (www : Path) (flags : Flags) (env : Env)
    (opts : DownloadOptions) (rsp : Response) (truncBytes : Bytes) (fs : FS) (sz : Nat)
    (hscheme : opts.src.protocol ≠ "file:") (h200 : rsp.status = 200)
    (hsz : rsp.contentLength = some sz) (hsz0 : sz ≠ 0) (hci : env.ci = false) :
    (download_with_sha www flags env opts rsp true truncBytes fs).progress
        = (cumsum (rsp.chunks.map List.length)).map (fun n => pcOf n sz)
    ∧ List.Chain' (· ≤ ·)
        (download_with_sha www flags env opts rsp true truncBytes fs).progress
    ∧ ((rsp.chunks.map List.length).sum ≤ sz →
        ∀ pc ∈ (download_with_sha www flags env opts rsp true truncBytes fs).progress,
          pc ≤ 100)
    ∧ (rsp.chunks ≠ [] → (rsp.chunks.map List.length).sum = sz →
        (download_with_sha www flags env opts rsp true truncBytes fs).progress.getLast?
          = some 100) := by
  have hprog : (download_with_sha www flags env opts rsp true truncBytes fs).progress
      = (cumsum (rsp.chunks.map List.length)).map (fun n => pcOf n sz) := by
    cases hLM : rsp.lastModified with
    | some t =>
      have hi := internal_200_ok_some www flags env opts rsp true truncBytes fs t
        hscheme h200 rfl hLM
      simp only [download_with_sha, hi, if_true, eq_self_iff_true]
      show progressOf rsp.contentLength env.ci (rsp.chunks.map List.length) = _
      rw [hsz, hci]
      simp [progressOf, hsz0]
    | none =>
      have hi := internal_200_ok_none www flags env opts rsp true truncBytes fs
        hscheme h200 rfl hLM
      simp only [download_with_sha, hi, if_true, eq_self_iff_true]
      show progressOf rsp.contentLength env.ci (rsp.chunks.map List.length) = _
      rw [hsz, hci]
      simp [progressOf, hsz0]
  refine ⟨hprog, ?_, ?_, ?_⟩
  · rw [hprog, List.chain'_map]
    exact (cumsumFrom_chain 0 _).imp (fun a b hab => pcOf_mono sz hab)
  · rw [hprog]
    intro hsum pc hpc
    rcases List.mem_map.mp hpc with ⟨n, hn, rfl⟩
    have h1 : n ≤ 0 + (rsp.chunks.map List.length).sum := cumsumFrom_le_sum 0 _ n hn
    exact pcOf_le_100 n sz hsz0 (by omega)
  · intro hne0 hsum
    have hne1 : rsp.chunks.map List.length ≠ [] := by
      cases hc : rsp.chunks with
      | nil => exact absurd hc hne0
      | cons a t => simp [hc]
    rw [hprog, getLast?_map_pc, cumsum, cumsumFrom_getLast? 0 _ hne1]
    simp [hsum, pcOf_self sz hsz0]

/-- C9 witness: the amended claim at a concrete body of 1+3 bytes with
`Content-Length: 4`, whose progress sequence is `[25, 100]`. -/
theorem c9_witness :
    (optsC.src.protocol ≠ "file:" ∧ rsp200pr.status = 200
      ∧ rsp200pr.contentLength = some 4 ∧ (4 : Nat) ≠ 0
      ∧ (default_env.ci = false))
    ∧ ((download_with_sha wwwEx ⟨false⟩ default_env optsC rsp200pr true [] fsHi).progress
        = (cumsum (rsp200pr.chunks.map List.length)).map (fun n => pcOf n 4)
      ∧ List.Chain' (· ≤ ·)
          (download_with_sha wwwEx ⟨false⟩ default_env optsC rsp200pr true [] fsHi).progress
      ∧ ((rsp200pr.chunks.map List.length).sum ≤ 4 →
          ∀ pc ∈ (download_with_sha wwwEx ⟨false⟩ default_env optsC rsp200pr true []
            fsHi).progress, pc ≤ 100)
      ∧ (rsp200pr.chunks ≠ [] → (rsp200pr.chunks.map List.length).sum = 4 →
          (download_with_sha wwwEx ⟨false⟩ default_env optsC rsp200pr true []
            fsHi).progress.getLast? = some 100)) :=
  ⟨by decide, c9_progress_monotone wwwEx ⟨false⟩ default_env optsC rsp200pr [] fsHi 4
    (by decide) (by decide) (by decide) (by decide) (by decide)⟩

/-- C10.  An ephemeral 200 download carrying `Last-Modified` still records the
freshness marker under the cache key, still defaults the destination into the
cache key directory, and thereby makes a later non-ephemeral call for the same
URL send `If-Modified-Since`: ephemeral bypasses reading the baseline, not
recording it. -/
theorem c10_ephemeral_still_records (www : Path) (flags flags2 : Flags) (env env2 : Env)
    (opts : DownloadOptions) (rsp rsp2 : Response) (bodyOk2 : Bool)
    (truncBytes truncBytes2 : Bytes) (fs : FS) (t : String)
    (h2 : List (String × String))
    (hscheme : opts.src.protocol ≠ "file:") (_heph : opts.ephemeral = true)
    (h200 : rsp.status = 200) (hLM : rsp.lastModified = some t)
    (hdst : opts.dst = none) (hbn : basename opts.src.pathname ≠ "mtime")
    (hno2 : hasHeader h2 "If-Modified-Since" = false) :
    (internal www flags env opts rsp true truncBytes fs).fs (mtimeOf www opts.src)
        = some (SHA256.strBytes t)
    ∧ (internal www flags env opts rsp true truncBytes fs).result
        = .ok (hash_key www opts.src ++ [basename opts.src.pathname])
    ∧ hasHeader (internal www flags2 env2
          { src := opts.src, dst := none, headers := h2, ephemeral := false }
          rsp2 bodyOk2 truncBytes2
          ((internal www flags env opts rsp true truncBytes fs).fs)).reqHeaders
        "If-Modified-Since" = true := by
  have hi := internal_200_ok_some www flags env opts rsp true truncBytes fs t
    hscheme h200 rfl hLM
  have hne := dstOf_default_ne_mtimeOf www opts hdst hbn
  have hkey : dstOf www opts = hash_key www opts.src ++ [basename opts.src.pathname] := by
    simp [dstOf, hdst]
  have hmt : (internal www flags env opts rsp true truncBytes fs).fs (mtimeOf www opts.src)
      = some (SHA256.strBytes t) := by
    rw [hi]
    exact FS.set_self _ _ _
  have hdstfile : (internal www flags env opts rsp true truncBytes fs).fs (dstOf www opts)
      = some rsp.chunks.flatten := by
    rw [hi]
    show (FS.set (FS.set (FS.set fs (dstOf www opts) []) (dstOf www opts)
      rsp.chunks.flatten) (mtimeOf www opts.src) (SHA256.strBytes t)) (dstOf www opts)
      = some rsp.chunks.flatten
    rw [FS.set_other _ _ _ _ hne, FS.set_self]
  refine ⟨hmt, ?_, ?_⟩
  · rw [hi]
    show Except.ok (dstOf www opts)
        = Except.ok (hash_key www opts.src ++ [basename opts.src.pathname])
    rw [hkey]
  · rw [internal_reqHeaders www flags2 env2
        { src := opts.src, dst := none, headers := h2, ephemeral := false }
        rsp2 bodyOk2 truncBytes2 _ hscheme,
      hasHeader_sentHeaders www env2 _ _ hno2]
    show (!(false : Bool)
        && ((internal www flags env opts rsp true truncBytes fs).fs
            (mtimeOf www opts.src)).isSome
        && ((internal www flags env opts rsp true truncBytes fs).fs
            (hash_key www opts.src ++ [basename opts.src.pathname])).isSome) = true
    rw [hmt, ← hkey, hdstfile]
    rfl

/-- C10 witness: a concrete ephemeral download of the example URL followed by
a non-ephemeral call, whose request carries the conditional header. -/
theorem c10_witness :
    (exampleURL.protocol ≠ "file:"
      ∧ (optsEph.ephemeral = true)
      ∧ rsp200ex.status = 200
      ∧ rsp200ex.lastModified = some "Wed, 21 Oct 2015 07:28:00 GMT"
      ∧ optsEph.dst = none
      ∧ basename optsEph.src.pathname ≠ "mtime"
      ∧ hasHeader ([] : List (String × String)) "If-Modified-Since" = false)
    ∧ ((internal wwwEx ⟨false⟩ {} optsEph rsp200ex true [] emptyFS).fs
          (mtimeOf wwwEx optsEph.src)
        = some (SHA256.strBytes "Wed, 21 Oct 2015 07:28:00 GMT")
      ∧ (internal wwwEx ⟨false⟩ {} optsEph rsp200ex true [] emptyFS).result
        = .ok (hash_key wwwEx optsEph.src ++ [basename optsEph.src.pathname])
      ∧ hasHeader (internal wwwEx ⟨false⟩ {}
            { src := optsEph.src, dst := none, headers := [], ephemeral := false }
            rsp304ex true []
            ((internal wwwEx ⟨false⟩ {} optsEph rsp200ex true [] emptyFS).fs)).reqHeaders
          "If-Modified-Since" = true) :=
  ⟨by decide, c10_ephemeral_still_records wwwEx ⟨false⟩ ⟨false⟩ {} {} optsEph rsp200ex
    rsp304ex true [] [] emptyFS "Wed, 21 Oct 2015 07:28:00 GMT" []
    (by decide) (by decide) (by decide) (by decide) (by decide) (by decide) (by decide)⟩

/-- C8 witness: a concrete 304 run. -/
theorem c8_witness :
    (optsC.src.protocol ≠ "file:" ∧ rsp304ex.status = 304)
    ∧ ((internal wwwEx ⟨false⟩ {} optsC rsp304ex true [] fsHi).fs = fsHi
      ∧ (internal wwwEx ⟨false⟩ {} optsC rsp304ex true [] fsHi).bodyInvoked = false
      ∧ (internal wwwEx ⟨false⟩ {} optsC rsp304ex true [] fsHi).result
          = .ok (dstOf wwwEx optsC)) :=
  ⟨by decide,
    c8_304_frame wwwEx ⟨false⟩ {} optsC rsp304ex true [] fsHi (by decide) (by decide)⟩

end Spec2Proof
